import Mathlib

/-!
Verification development for the tiling/reconstruction inference core of
`raidionicsseg` (file `raidionicsseg/Inference/predictions.py`).

The core is embedded shallowly:

* 3D volumes (`Vol3`) and 4D probability volumes (`Vol4`) are shapes
  together with total valuation functions into `ℚ` (real-valued
  intensities and probabilities are modelled by rationals);
* the ONNX model session is an abstract, fallible invocation capability
  (`InferModel`): one field per input shape used by the three strategies.
  The `expand_dims` batch/channel wrapping, the `(1, n0, n1, ...)`
  reshapes and the unwrapping of the primary (deep-supervision) output
  are absorbed into the abstract model functions, which map the extracted
  tile directly to the primary prediction tensor;
* a Python exception raised by `model.run` is an `Except.error`; the
  `try/except` block wrapping each strategy is `relabel`, which replaces
  any internal error with the strategy's fixed mode-labelled message;
* writes into the `final_result` accumulator are functional updates of
  the valuation; the shape of the accumulator is fixed at allocation
  time exactly as `np.zeros(data.shape + (nb_classes,))` fixes it;
* the in-place swap of `parameters.new_axial_size` performed by the slab
  strategy (the Python code assigns into the list aliased by the
  configuration object) is made observable by returning the post-call
  value of that field alongside the result.

The padding helpers live in `raidionicsseg/Utils/volume_utilities.py`,
which is not part of the sources under verification; they are modelled
from the specification (see the individual doc comments).
-/

namespace RaidionicsSeg

/-- A 3D volume: spatial shape plus a total valuation.  Only the values at
indices below the shape are meaningful. -/
structure Vol3 where
  d0 : Nat
  d1 : Nat
  d2 : Nat
  val : Nat → Nat → Nat → ℚ

/-- A 4D probability volume: spatial shape, class-axis size, valuation. -/
structure Vol4 where
  d0 : Nat
  d1 : Nat
  d2 : Nat
  dc : Nat
  val : Nat → Nat → Nat → Nat → ℚ

/-- The slicing plane for the slab strategy.  The configuration parser
(out of scope of this core) only ever produces these three values. -/
inductive SlicingPlane where
  | axial
  | sagittal
  | coronal
deriving DecidableEq, Repr

/-- The configuration fields read by `run_predictions` and the three
strategies (`ConfigResources` in the source). `new_axial_size` is a
mutable Python list on the source side. -/
structure ConfigResources where
  new_axial_size : List Nat
  slicing_plane : SlicingPlane
  training_slab_size : Nat
  training_patch_size : Nat × Nat × Nat
  training_patch_offset : Nat × Nat × Nat
  training_nb_classes : Nat
  predictions_non_overlapping : Bool
  swap_training_input : Bool
  fix_orientation : Bool
  training_deep_supervision : Bool
deriving DecidableEq, Repr

/-- The abstract model invocation capability (one loaded ONNX session).
Each field is the session specialised to one of the input layouts used
by the strategies; an invocation either returns the primary prediction
tensor or fails (a raised exception). -/
structure InferModel where
  whole : Vol3 → Except String Vol4
  slab2d : (Nat → Nat → ℚ) → Except String (Nat → Nat → Nat → ℚ)
  slab3d : (Nat → Nat → Nat → ℚ) → Except String (Nat → Nat → Nat → Nat → ℚ)
  patch3d : (Nat → Nat → Nat → ℚ) → Except String (Nat → Nat → Nat → Nat → ℚ)

/-- The `try/except` wrapper around a whole strategy: any internal
exception is logged and re-raised as the fixed mode-labelled error. -/
def relabel (msg : String) : Except String α → Except String α
  | .ok a => .ok a
  | .error _ => .error msg

/-- `ceil(a / b)` on naturals (`math.ceil` / `np.ceil` of a true division
of nonnegative quantities); `0` when `b = 0`. -/
def ceilDivN (a b : Nat) : Nat := (a + b - 1) / b

/-- Extent of a volume along the slicing axis (`upper_boundary` in the
source: axis 0 for sagittal, axis 1 for coronal, axis 2 otherwise). -/
def axisExtent (p : SlicingPlane) (v : Vol3) : Nat :=
  match p with
  | .sagittal => v.d0
  | .coronal => v.d1
  | .axial => v.d2

/-- The axis-component of a voxel index for a given slicing plane. -/
def axisCoord (p : SlicingPlane) (i j k : Nat) : Nat :=
  match p with
  | .sagittal => i
  | .coronal => j
  | .axial => k

/-- The two non-axis components of a voxel index, in the order in which
the extracted slab presents them (sagittal slabs are transposed to
`(1,2,0)`, coronal slabs to `(0,2,1)`, axial slabs keep `(0,1,2)`). -/
def otherCoords (p : SlicingPlane) (i j k : Nat) : Nat × Nat :=
  match p with
  | .sagittal => (j, k)
  | .coronal => (i, k)
  | .axial => (i, j)

/-- The extents of the two non-axis dimensions, in slab order. -/
def otherExtents (p : SlicingPlane) (v : Vol3) : Nat × Nat :=
  match p with
  | .sagittal => (v.d1, v.d2)
  | .coronal => (v.d0, v.d2)
  | .axial => (v.d0, v.d1)

/-- Extraction of a slab of slices `[lo, lo + len)` along the slicing
axis, presented as `(other₁, other₂, slab-axis)` exactly as the source
extracts and transposes it (`(1,2,0)` for sagittal, `(0,2,1)` for
coronal, identity for axial). -/
def extractSlab (p : SlicingPlane) (lo : Nat) (v : Vol3) :
    Nat → Nat → Nat → ℚ :=
  fun a b t =>
    match p with
    | .sagittal => v.val (lo + t) a b
    | .coronal => v.val a (lo + t) b
    | .axial => v.val a b (lo + t)

/-- Writing a prediction tensor back into the accumulator over slices
`[lo, lo + len)` along the slicing axis, inverting the slab transpose
(the source's `transpose((2,0,1))` / `transpose((0,2,1))` writes). -/
def writeSlabChunk (p : SlicingPlane) (lo len : Nat)
    (pred : Nat → Nat → Nat → Nat → ℚ)
    (acc : Nat → Nat → Nat → Nat → ℚ) :
    Nat → Nat → Nat → Nat → ℚ :=
  fun i j k c =>
    let ax := axisCoord p i j k
    let oc := otherCoords p i j k
    if lo ≤ ax ∧ ax < lo + len then pred oc.1 oc.2 (ax - lo) c
    else acc i j k c

/-- The trailing pad amount making `ub` divisible by `slab`. -/
def padTailAmount (ub slab : Nat) : Nat := (slab - ub % slab) % slab

/-- Modelled from the spec: `padding_for_inference` from
`raidionicsseg/Utils/volume_utilities.py` (not among the sources).
Tail padding: pad only the trailing end of the slicing axis with zeros
so that the extent is divisible by `slab_size`; returns the padded
volume and the pad amount. -/
def padding_for_inference (v : Vol3) (slab : Nat) (p : SlicingPlane) :
    Vol3 × Nat :=
  let ub := axisExtent p v
  let pad := padTailAmount ub slab
  let pv : Vol3 :=
    match p with
    | .sagittal => ⟨ub + pad, v.d1, v.d2,
        fun i j k => if i < ub then v.val i j k else 0⟩
    | .coronal => ⟨v.d0, ub + pad, v.d2,
        fun i j k => if j < ub then v.val i j k else 0⟩
    | .axial => ⟨v.d0, v.d1, ub + pad,
        fun i j k => if k < ub then v.val i j k else 0⟩
  (pv, pad)

/-- Modelled from the spec: `padding_for_inference_both_ends` from
`raidionicsseg/Utils/volume_utilities.py` (not among the sources).
Pad `slab_size / 2` zero slices on both ends of the slicing axis, so
every original slice can be centered in a window. -/
def padding_for_inference_both_ends (v : Vol3) (slab : Nat)
    (p : SlicingPlane) : Vol3 :=
  let ub := axisExtent p v
  let half := slab / 2
  match p with
  | .sagittal => ⟨ub + 2 * half, v.d1, v.d2,
      fun i j k => if half ≤ i ∧ i < half + ub then v.val (i - half) j k else 0⟩
  | .coronal => ⟨v.d0, ub + 2 * half, v.d2,
      fun i j k => if half ≤ j ∧ j < half + ub then v.val i (j - half) k else 0⟩
  | .axial => ⟨v.d0, v.d1, ub + 2 * half,
      fun i j k => if half ≤ k ∧ k < half + ub then v.val i j (k - half) else 0⟩

/-- The recorded per-end pad amounts of the patch-wise padding
(`extra_dims` in the source: leading/trailing pad for each axis). -/
structure ExtraDims where
  l0 : Nat
  t0 : Nat
  l1 : Nat
  t1 : Nat
  l2 : Nat
  t2 : Nat
deriving DecidableEq, Repr

/-- Modelled from the spec: `padding_for_inference_both_ends_patchwise`
from `raidionicsseg/Utils/volume_utilities.py` (not among the sources).
Pad every spatial axis symmetrically with zeros, as needed, so that each
extent is at least `patch_size[axis]`; return the padded volume and the
six per-end pad amounts for exact later stripping. -/
def padding_for_inference_both_ends_patchwise (v : Vol3)
    (ps : Nat × Nat × Nat) : Vol3 × ExtraDims :=
  let def0 := ps.1 - v.d0
  let def1 := ps.2.1 - v.d1
  let def2 := ps.2.2 - v.d2
  let e : ExtraDims :=
    ⟨def0 / 2, def0 - def0 / 2, def1 / 2, def1 - def1 / 2,
     def2 / 2, def2 - def2 / 2⟩
  (⟨v.d0 + e.l0 + e.t0, v.d1 + e.l1 + e.t1, v.d2 + e.l2 + e.t2,
    fun i j k =>
      if e.l0 ≤ i ∧ i < e.l0 + v.d0 ∧ e.l1 ≤ j ∧ j < e.l1 + v.d1 ∧
          e.l2 ≤ k ∧ k < e.l2 + v.d2 then
        v.val (i - e.l0) (j - e.l1) (k - e.l2)
      else 0⟩, e)

/-- The zero valuation (the `np.zeros` accumulator). -/
def zeroVal : Nat → Nat → Nat → Nat → ℚ := fun _ _ _ _ => 0

/-- The whole-volume strategy (`__run_predictions_whole`): one model
invocation on the whole volume; the batch/channel `expand_dims` and the
`predictions[0][0]` unwrapping are absorbed into `m.whole`.  Any raised
exception is re-raised with the fixed whole-mode message. -/
def runWhole (m : InferModel) (data : Vol3) : Except String Vol4 :=
  relabel "Segmentation inference (whole mode) could not fully proceed."
    (m.whole data)

/-- `True` when the slice `data[:, :, s]` has no voxel of intensity
exceeding `0.1` (`np.sum(slab_CT > 0.1) == 0` in the source). -/
def emptySlice2 (data : Vol3) (s : Nat) : Bool :=
  (List.range data.d0).all fun i =>
    (List.range data.d1).all fun j => decide (data.val i j s ≤ mkRat 1 10)

/-- Writing a single 2D prediction back at slice `s` of axis 2
(`final_result[:, :, slice, c] = slab_CT_pred[:, :, c]`). -/
def write1 (s : Nat) (pred : Nat → Nat → Nat → ℚ)
    (acc : Nat → Nat → Nat → Nat → ℚ) : Nat → Nat → Nat → Nat → ℚ :=
  fun i j k c => if k = s then pred i j c else acc i j k c

/-- The slice loop of the `slab_size == 1` sliding sub-mode.  It walks
`range(0, data.shape[2])` — axis 2, whatever the slicing plane — skips
empty slices, and writes each prediction back at the same axis-2 index.
The second component logs the slice indices for which the model was
actually invoked. -/
def sliding1Fold (data : Vol3) (m1 : (Nat → Nat → ℚ) → Except String (Nat → Nat → Nat → ℚ))
    (slices : List Nat) (acc : Nat → Nat → Nat → Nat → ℚ) (log : List Nat) :
    Except String (Nat → Nat → Nat → Nat → ℚ) × List Nat :=
  match slices with
  | [] => (.ok acc, log)
  | s :: rest =>
    if emptySlice2 data s then sliding1Fold data m1 rest acc log
    else
      match m1 (fun i j => data.val i j s) with
      | .error e => (.error e, log ++ [s])
      | .ok pred => sliding1Fold data m1 rest (write1 s pred acc) (log ++ [s])

/-- The `slab_size == 1` sliding sub-mode of `__run_predictions_slabbed`
(source lines 166–176).  The `np.reshape` of each slice to
`(1, new_axial_size[0], new_axial_size[1], 1)` is absorbed into `m1`. -/
def runSlabbedSliding1 (cfg : ConfigResources)
    (m1 : (Nat → Nat → ℚ) → Except String (Nat → Nat → Nat → ℚ))
    (data : Vol3) : Except String Vol4 × List Nat :=
  ((sliding1Fold data m1 (List.range data.d2) zeroVal []).1.map
     fun v => ⟨data.d0, data.d1, data.d2, cfg.training_nb_classes, v⟩,
   (sliding1Fold data m1 (List.range data.d2) zeroVal []).2)

/-- The `fix_orientation` conjugation of a slab-model invocation: the
input is transposed by `(0, 3, 1, 2, 4)` before the call and the output
by `(0, 2, 3, 1, 4)` after it (identity when the flag is unset). -/
def orient3 (fix : Bool)
    (m3 : (Nat → Nat → Nat → ℚ) → Except String (Nat → Nat → Nat → Nat → ℚ))
    (w : Nat → Nat → Nat → ℚ) :
    Except String (Nat → Nat → Nat → Nat → ℚ) :=
  if fix then
    (m3 (fun t a b => w a b t)).map fun pr => fun a b t c => pr t a b c
  else m3 w

/-- `True` when the centered window of `2 * half` slices at padded index
`s` contains no voxel exceeding `0.1` (the `np.sum(slab_CT > 0.1) == 0`
check of the `slab_size > 1` sub-mode). -/
def emptyWindow (p : SlicingPlane) (half s : Nat) (padded : Vol3) : Bool :=
  let e := otherExtents p padded
  (List.range e.1).all fun a =>
    (List.range e.2).all fun b =>
      (List.range (2 * half)).all fun t =>
        decide (extractSlab p (s - half) padded a b t ≤ mkRat 1 10)

/-- The original-coordinate slice index written by the `slab_size > 1`
sub-mode at loop index `s`: `slice - half_slab_size` for axial (source
line 207), but `slice` itself for sagittal and coronal (lines 209/211). -/
def writeLoK (p : SlicingPlane) (s half : Nat) : Nat :=
  match p with
  | .axial => s - half
  | .sagittal => s
  | .coronal => s

/-- The slice loop of the `slab_size > 1` sliding sub-mode: for each loop
index, extract the window of `2 * half` slices starting at `s - half`
from the both-ends-padded volume, skip it when empty, invoke the model
(under the orientation conjugation), and write the single central output
slice (index `half`) back at `writeLoK`. -/
def slidingKFold (p : SlicingPlane) (fix : Bool) (half : Nat) (padded : Vol3)
    (m3 : (Nat → Nat → Nat → ℚ) → Except String (Nat → Nat → Nat → Nat → ℚ))
    (slices : List Nat) (acc : Nat → Nat → Nat → Nat → ℚ) :
    Except String (Nat → Nat → Nat → Nat → ℚ) :=
  match slices with
  | [] => .ok acc
  | s :: rest =>
    if emptyWindow p half s padded then slidingKFold p fix half padded m3 rest acc
    else
      match orient3 fix m3 (extractSlab p (s - half) padded) with
      | .error e => .error e
      | .ok pred =>
        slidingKFold p fix half padded m3 rest
          (writeSlabChunk p (writeLoK p s half) 1
            (fun a b _ c => pred a b half c) acc)

/-- The `slab_size > 1` sliding sub-mode of `__run_predictions_slabbed`
(source lines 177–214): pad both ends of the slicing axis, then loop
`slice` over `range(half_slab_size, upper_boundary)` where
`upper_boundary` is the unpadded extent along the slicing axis. -/
def runSlabbedSlidingK (cfg : ConfigResources)
    (m3 : (Nat → Nat → Nat → ℚ) → Except String (Nat → Nat → Nat → Nat → ℚ))
    (data : Vol3) : Except String Vol4 :=
  (slidingKFold cfg.slicing_plane cfg.fix_orientation
      (cfg.training_slab_size / 2)
      (padding_for_inference_both_ends data cfg.training_slab_size
        cfg.slicing_plane) m3
      (List.range' (cfg.training_slab_size / 2)
        (axisExtent cfg.slicing_plane data - cfg.training_slab_size / 2))
      zeroVal).map
    fun v => ⟨data.d0, data.d1, data.d2, cfg.training_nb_classes, v⟩

/-- The chunk loop of the non-overlapping slab sub-mode: extract the
chunk of `slab` slices at `chunk * slab` from the tail-padded volume,
invoke the model, and write back either the full chunk or — for the last
chunk when padding was added (`unpad`) — only the first
`slab - pad_value` output slices. -/
def nonOverlapFold (p : SlicingPlane) (fix : Bool) (slab padVal scale : Nat)
    (padded : Vol3)
    (m3 : (Nat → Nat → Nat → ℚ) → Except String (Nat → Nat → Nat → Nat → ℚ))
    (chunks : List Nat) (acc : Nat → Nat → Nat → Nat → ℚ) :
    Except String (Nat → Nat → Nat → Nat → ℚ) :=
  match chunks with
  | [] => .ok acc
  | ch :: rest =>
    match orient3 fix m3 (extractSlab p (ch * slab) padded) with
    | .error e => .error e
    | .ok pred =>
      let unpad := ch = scale - 1 ∧ padVal ≠ 0
      let len := if unpad then slab - padVal else slab
      nonOverlapFold p fix slab padVal scale padded m3 rest
        (writeSlabChunk p (ch * slab) len pred acc)

/-- The non-overlapping (tiled) slab sub-mode of
`__run_predictions_slabbed` (source lines 113–164). -/
def runSlabbedNonOverlap (cfg : ConfigResources)
    (m3 : (Nat → Nat → Nat → ℚ) → Except String (Nat → Nat → Nat → Nat → ℚ))
    (data : Vol3) : Except String Vol4 :=
  (nonOverlapFold cfg.slicing_plane cfg.fix_orientation
      cfg.training_slab_size
      (padding_for_inference data cfg.training_slab_size cfg.slicing_plane).2
      (ceilDivN (axisExtent cfg.slicing_plane data) cfg.training_slab_size)
      (padding_for_inference data cfg.training_slab_size cfg.slicing_plane).1
      m3
      (List.range
        (ceilDivN (axisExtent cfg.slicing_plane data) cfg.training_slab_size))
      zeroVal).map
    fun v => ⟨data.d0, data.d1, data.d2, cfg.training_nb_classes, v⟩

/-- The post-call value of `parameters.new_axial_size`: the slab strategy
swaps the first two entries of the list aliased by the configuration
object when `swap_training_input` is set (source lines 97–100 assign
into the original list after deep-copying only the temporary). -/
def slabbedNewAxialAfter (cfg : ConfigResources) : List Nat :=
  if cfg.swap_training_input then
    match cfg.new_axial_size with
    | a :: b :: rest => b :: a :: rest
    | l => l
  else cfg.new_axial_size

/-- `__run_predictions_slabbed`: dispatch between the non-overlapping
sub-mode and the two sliding sub-modes, with the `try/except` relabel
wrapper; the second component is the post-call `new_axial_size`. -/
def runSlabbed (cfg : ConfigResources) (m : InferModel) (data : Vol3) :
    Except String Vol4 × List Nat :=
  let nasAfter := slabbedNewAxialAfter cfg
  let inner :=
    if cfg.predictions_non_overlapping then
      runSlabbedNonOverlap cfg m.slab3d data
    else if cfg.training_slab_size = 1 then
      (runSlabbedSliding1 cfg m.slab2d data).1
    else
      runSlabbedSlidingK cfg m.slab3d data
  (relabel "Segmentation inference (slab mode) could not fully proceed." inner,
   nasAfter)

/-- One axis of the candidate-patch boundary computation (source lines
242–265): boundaries `[start, start + ps]`; when the upper boundary
reaches or exceeds the padded extent, shift back by the overflow; when
the shifted lower boundary would be negative, skip the patch. -/
def patchB1 (start ps dim : Int) : Option (Int × Int) :=
  let b1 := start + ps
  if dim ≤ b1 then
    let diff := (dim - b1).natAbs
    let n0 := start - diff
    if n0 < 0 then none else some (n0, b1 - diff)
  else some (start, b1)

/-- The three-axis patch boundaries for grid index `g`, `none` when the
patch is skipped on any axis. -/
def patchBounds (dims : Nat × Nat × Nat) (ps off : Nat × Nat × Nat)
    (g : Nat × Nat × Nat) : Option ((Int × Int) × (Int × Int) × (Int × Int)) :=
  match patchB1 ((g.1 : Int) * ((ps.1 : Int) - off.1)) ps.1 dims.1 with
  | none => none
  | some bx =>
    match patchB1 ((g.2.1 : Int) * ((ps.2.1 : Int) - off.2.1)) ps.2.1 dims.2.1 with
    | none => none
    | some by2 =>
      match patchB1 ((g.2.2 : Int) * ((ps.2.2 : Int) - off.2.2)) ps.2.2 dims.2.2 with
      | none => none
      | some bz => some (bx, by2, bz)

/-- The 3D grid of candidate patch indices, in the source's loop order
(`x` outermost, `z` innermost), with `ceil(dim / (ps - off))` steps per
axis. -/
def patchGrid (dims : Nat × Nat × Nat) (ps off : Nat × Nat × Nat) :
    List (Nat × Nat × Nat) :=
  (List.range (ceilDivN dims.1 (ps.1 - off.1))).flatMap fun x =>
    (List.range (ceilDivN dims.2.1 (ps.2.1 - off.2.1))).flatMap fun y =>
      (List.range (ceilDivN dims.2.2 (ps.2.2 - off.2.2))).map fun z => (x, y, z)

/-- The patch of the padded volume selected by a boundary triple. -/
def extractPatch (padded : Vol3)
    (b : (Int × Int) × (Int × Int) × (Int × Int)) : Nat → Nat → Nat → ℚ :=
  fun a b2 t =>
    padded.val (b.1.1 + a).toNat (b.2.1.1 + b2).toNat (b.2.2.1 + t).toNat

/-- Whether a voxel lies inside the region selected by a patch-boundary
triple. -/
def inPatchB (b : (Int × Int) × (Int × Int) × (Int × Int))
    (i j k : Nat) : Bool :=
  decide (b.1.1 ≤ (i : Int) ∧ (i : Int) < b.1.2 ∧
    b.2.1.1 ≤ (j : Int) ∧ (j : Int) < b.2.1.2 ∧
    b.2.2.1 ≤ (k : Int) ∧ (k : Int) < b.2.2.2)

/-- The max-accumulating write of one patch prediction
(`final_result[...] = np.maximum(patch_pred[0], final_result[...])`). -/
def writeMaxPatch (b : (Int × Int) × (Int × Int) × (Int × Int))
    (pred : Nat → Nat → Nat → Nat → ℚ)
    (acc : Nat → Nat → Nat → Nat → ℚ) : Nat → Nat → Nat → Nat → ℚ :=
  fun i j k c =>
    if inPatchB b i j k then
      max (pred ((i : Int) - b.1.1).toNat ((j : Int) - b.2.1.1).toNat
            ((k : Int) - b.2.2.1).toNat c)
        (acc i j k c)
    else acc i j k c

/-- One step of the patch loop: resolve the boundaries, skip the patch
when any axis skips, otherwise invoke the model and max-accumulate. -/
def patchStep (mp : (Nat → Nat → Nat → ℚ) → Nat → Nat → Nat → Nat → ℚ)
    (padded : Vol3) (dims : Nat × Nat × Nat) (ps off : Nat × Nat × Nat)
    (acc : Nat → Nat → Nat → Nat → ℚ) (g : Nat × Nat × Nat) :
    Nat → Nat → Nat → Nat → ℚ :=
  match patchBounds dims ps off g with
  | none => acc
  | some b => writeMaxPatch b (mp (extractPatch padded b)) acc

/-- The patch loop over a list of grid indices, for a total (never
failing) model: a left fold of `patchStep`. -/
def patchFoldPure (mp : (Nat → Nat → Nat → ℚ) → Nat → Nat → Nat → Nat → ℚ)
    (padded : Vol3) (dims : Nat × Nat × Nat) (ps off : Nat × Nat × Nat)
    (gs : List (Nat × Nat × Nat)) (acc : Nat → Nat → Nat → Nat → ℚ) :
    Nat → Nat → Nat → Nat → ℚ :=
  List.foldl (patchStep mp padded dims ps off) acc gs

/-- The patch loop for the fallible model: a failing invocation aborts
the whole loop. -/
def patchFold (mp : (Nat → Nat → Nat → ℚ) → Except String (Nat → Nat → Nat → Nat → ℚ))
    (padded : Vol3) (dims : Nat × Nat × Nat) (ps off : Nat × Nat × Nat)
    (gs : List (Nat × Nat × Nat)) (acc : Nat → Nat → Nat → Nat → ℚ) :
    Except String (Nat → Nat → Nat → Nat → ℚ) :=
  match gs with
  | [] => .ok acc
  | g :: rest =>
    match patchBounds dims ps off g with
    | none => patchFold mp padded dims ps off rest acc
    | some b =>
      match mp (extractPatch padded b) with
      | .error e => .error e
      | .ok pred => patchFold mp padded dims ps off rest (writeMaxPatch b pred acc)

/-- The patch-wise padding of the input for a given configuration. -/
def patchPadded (cfg : ConfigResources) (data : Vol3) : Vol3 × ExtraDims :=
  padding_for_inference_both_ends_patchwise data cfg.training_patch_size

/-- The padded spatial extents seen by the patch grid. -/
def patchDims (cfg : ConfigResources) (data : Vol3) : Nat × Nat × Nat :=
  ((patchPadded cfg data).1.d0, (patchPadded cfg data).1.d1,
   (patchPadded cfg data).1.d2)

/-- The patch grid of a configuration over the padded input. -/
def patchGridOf (cfg : ConfigResources) (data : Vol3) :
    List (Nat × Nat × Nat) :=
  patchGrid (patchDims cfg data) cfg.training_patch_size
    cfg.training_patch_offset

/-- Stripping the recorded patch-wise padding from the accumulated
volume (`final_result[extra_dims[0] : shape[0] - extra_dims[1], ...]`). -/
def stripVol (e : ExtraDims) (v : Vol4) : Vol4 :=
  ⟨v.d0 - e.t0 - e.l0, v.d1 - e.t1 - e.l1, v.d2 - e.t2 - e.l2, v.dc,
   fun i j k c => v.val (i + e.l0) (j + e.l1) (k + e.l2) c⟩

/-- `__run_predictions_patch` (source lines 222–289): pad patch-wise,
accumulate patch predictions by element-wise maximum over the grid,
strip the padding, and relabel any internal error. -/
def runPatch (cfg : ConfigResources) (m : InferModel) (data : Vol3) :
    Except String Vol4 :=
  relabel "Segmentation inference (patch mode) could not fully proceed."
    ((patchFold m.patch3d (patchPadded cfg data).1 (patchDims cfg data)
        cfg.training_patch_size cfg.training_patch_offset
        (patchGridOf cfg data) zeroVal).map
      fun v =>
        stripVol (patchPadded cfg data).2
          ⟨(patchDims cfg data).1, (patchDims cfg data).2.1,
           (patchDims cfg data).2.2, cfg.training_nb_classes, v⟩)

/-- `run_predictions`: the mode selector (source lines 41–52), plus the
post-call configuration object (its `new_axial_size` list is mutated by
the slab strategy). -/
def run_predictions (cfg : ConfigResources) (m : InferModel) (data : Vol3) :
    Except String Vol4 × ConfigResources :=
  if cfg.new_axial_size ≠ [] ∧ cfg.new_axial_size.length = 3 then
    (runWhole m data, cfg)
  else if cfg.new_axial_size ≠ [] ∧ cfg.new_axial_size.length = 2 then
    ((runSlabbed cfg m data).1,
     { cfg with new_axial_size := (runSlabbed cfg m data).2 })
  else
    (runPatch cfg m data, cfg)

/-- A total (never failing) slab/patch model, wrapped as a fallible one. -/
def okM3 (mp : (Nat → Nat → Nat → ℚ) → Nat → Nat → Nat → Nat → ℚ) :
    (Nat → Nat → Nat → ℚ) → Except String (Nat → Nat → Nat → Nat → ℚ) :=
  fun w => .ok (mp w)

/-- The pure counterpart of `orient3` for a total model. -/
def orient3P (fix : Bool)
    (mp : (Nat → Nat → Nat → ℚ) → Nat → Nat → Nat → Nat → ℚ)
    (w : Nat → Nat → Nat → ℚ) : Nat → Nat → Nat → Nat → ℚ :=
  if fix then fun a b t c => mp (fun t' a' b' => w a' b' t') t a b c
  else mp w

/-- The pure counterpart of `nonOverlapFold` for a total model. -/
def nonOverlapPure (p : SlicingPlane) (fix : Bool) (slab padVal scale : Nat)
    (padded : Vol3)
    (mp : (Nat → Nat → Nat → ℚ) → Nat → Nat → Nat → Nat → ℚ)
    (chunks : List Nat) (acc : Nat → Nat → Nat → Nat → ℚ) :
    Nat → Nat → Nat → Nat → ℚ :=
  List.foldl
    (fun a ch =>
      writeSlabChunk p (ch * slab)
        (if ch = scale - 1 ∧ padVal ≠ 0 then slab - padVal else slab)
        (orient3P fix mp (extractSlab p (ch * slab) padded)) a)
    acc chunks

/-- The prediction of the patch at boundaries `b`, read at an absolute
voxel of the padded volume. -/
def predAt (mp : (Nat → Nat → Nat → ℚ) → Nat → Nat → Nat → Nat → ℚ)
    (padded : Vol3) (b : (Int × Int) × (Int × Int) × (Int × Int))
    (i j k c : Nat) : ℚ :=
  mp (extractPatch padded b) ((i : Int) - b.1.1).toNat
    ((j : Int) - b.2.1.1).toNat ((k : Int) - b.2.2.1).toNat c

/-- The predicted values, at one voxel, of all patches of a grid-index
list that cover that voxel (skipped candidates contribute nothing). -/
def coveringPredsL (mp : (Nat → Nat → Nat → ℚ) → Nat → Nat → Nat → Nat → ℚ)
    (padded : Vol3) (dims : Nat × Nat × Nat) (ps off : Nat × Nat × Nat)
    (L : List (Nat × Nat × Nat)) (i j k c : Nat) : List ℚ :=
  L.filterMap fun g =>
    match patchBounds dims ps off g with
    | none => none
    | some b =>
      if inPatchB b i j k then some (predAt mp padded b i j k c) else none

/-- The fully accumulated (pre-stripping) patch-mode valuation for a
total model. -/
def patchAccum (cfg : ConfigResources)
    (mp : (Nat → Nat → Nat → ℚ) → Nat → Nat → Nat → Nat → ℚ)
    (data : Vol3) : Nat → Nat → Nat → Nat → ℚ :=
  patchFoldPure mp (patchPadded cfg data).1 (patchDims cfg data)
    cfg.training_patch_size cfg.training_patch_offset
    (patchGridOf cfg data) zeroVal

/-- The covering predictions of the full grid at one padded voxel. -/
def patchCovering (cfg : ConfigResources)
    (mp : (Nat → Nat → Nat → ℚ) → Nat → Nat → Nat → Nat → ℚ)
    (data : Vol3) (i j k c : Nat) : List ℚ :=
  coveringPredsL mp (patchPadded cfg data).1 (patchDims cfg data)
    cfg.training_patch_size cfg.training_patch_offset
    (patchGridOf cfg data) i j k c

/-- The non-skipped patch boundaries along one axis (the same
`ceil(dim / stride)` candidates and `patchB1` resolution the grid uses,
restricted to a single axis). -/
def nonSkippedAxis (dim ps off : Nat) : List (Int × Int) :=
  (List.range (ceilDivN dim (ps - off))).filterMap fun i =>
    patchB1 ((i : Int) * ((ps : Int) - (off : Int))) ps dim

/-- The value of a successful run at one voxel, `none` on failure. -/
def resVal (e : Except String Vol4) (i j k c : Nat) : Option ℚ :=
  match e with
  | .ok r => some (r.val i j k c)
  | .error _ => none

/-- The shape of a successful run's result, `none` on failure. -/
def resultShape (e : Except String Vol4) : Option (Nat × Nat × Nat × Nat) :=
  match e with
  | .ok r => some (r.d0, r.d1, r.d2, r.dc)
  | .error _ => none

/-! Concrete volumes, configurations and models used to evaluate the
embedded strategies on explicit inputs. -/

/-- A 64×64×40 volume (contents irrelevant to the grid geometry). -/
def vol64x64x40 : Vol3 := ⟨64, 64, 40, fun _ _ _ => 0⟩

/-- Slab configuration: axial plane, sliding window of slab size 2. -/
def cfgSlabAxial2 : ConfigResources :=
  ⟨[4, 4], .axial, 2, (1, 1, 1), (0, 0, 0), 1, false, false, false, false⟩

/-- A 1×1×3 volume with every voxel at intensity 1. -/
def volOnes113 : Vol3 := ⟨1, 1, 3, fun _ _ _ => 1⟩

/-- A slab model that predicts probability 1 everywhere. -/
def m3one : (Nat → Nat → Nat → ℚ) → Except String (Nat → Nat → Nat → Nat → ℚ) :=
  fun _ => .ok fun _ _ _ _ => 1

/-- Slab configuration: sagittal plane, sliding window of slab size 2. -/
def cfgSlabSag2 : ConfigResources :=
  ⟨[4, 4], .sagittal, 2, (1, 1, 1), (0, 0, 0), 1, false, false, false, false⟩

/-- A 3×1×1 volume whose axis-0 slices hold 1, 2, 3. -/
def volRamp311 : Vol3 :=
  ⟨3, 1, 1, fun i _ _ => if i = 0 then 1 else if i = 1 then 2 else 3⟩

/-- A slab model that returns its input window unchanged, for every
class: the prediction at window position `t` is the input slice `t`. -/
def m3id : (Nat → Nat → Nat → ℚ) → Except String (Nat → Nat → Nat → Nat → ℚ) :=
  fun w => .ok fun a b t _ => w a b t

/-- Slab configuration: sagittal plane, slab size 1. -/
def cfgSlabSag1 : ConfigResources :=
  ⟨[4, 4], .sagittal, 1, (1, 1, 1), (0, 0, 0), 1, false, false, false, false⟩

/-- A 2×1×1 volume: axis-0 slice 0 holds 1, slice 1 holds 0. -/
def volStep211 : Vol3 := ⟨2, 1, 1, fun i _ _ => if i = 0 then 1 else 0⟩

/-- A 2D slab model that predicts probability 1 everywhere. -/
def m1one : (Nat → Nat → ℚ) → Except String (Nat → Nat → Nat → ℚ) :=
  fun _ => .ok fun _ _ _ => 1

/-- Slab-mode configuration with `swap_training_input` set and a
non-trivial `new_axial_size` list. -/
def cfgSwap : ConfigResources :=
  ⟨[2, 3], .axial, 1, (1, 1, 1), (0, 0, 0), 1, false, true, false, false⟩

/-- A model bundle whose every invocation succeeds with probability 1. -/
def mAllOne : InferModel :=
  ⟨fun v => .ok ⟨v.d0, v.d1, v.d2, 1, fun _ _ _ _ => 1⟩, m1one, m3one,
   fun _ => .ok fun _ _ _ _ => 1⟩

/-- A model bundle whose every invocation raises. -/
def mErr : InferModel :=
  ⟨fun _ => .error "onnx", fun _ => .error "onnx", fun _ => .error "onnx",
   fun _ => .error "onnx"⟩

/-- Patch-mode configuration (empty `new_axial_size`) with unit patches. -/
def cfgPatchTiny : ConfigResources :=
  ⟨[], .axial, 1, (1, 1, 1), (0, 0, 0), 2, false, false, false, false⟩

/-- A 1×1×1 volume with its voxel at intensity 1. -/
def volUnit111 : Vol3 := ⟨1, 1, 1, fun _ _ _ => 1⟩

/-- A model bundle that fails in whole mode but succeeds elsewhere. -/
def mPatchOnly : InferModel :=
  ⟨fun _ => .error "na", m1one, m3one, fun _ => .ok fun _ _ _ _ => 0⟩

/-- Patch-mode configuration with overlapping 2×1×1 patches (offset 1
along axis 0). -/
def cfgPatchOverlap : ConfigResources :=
  ⟨[], .axial, 1, (2, 1, 1), (1, 0, 0), 1, false, false, false, false⟩

/-- A total patch model predicting 1 everywhere. -/
def mpOne : (Nat → Nat → Nat → ℚ) → Nat → Nat → Nat → Nat → ℚ :=
  fun _ _ _ _ _ => 1

/-- Slab-mode configuration (length-2 `new_axial_size`), slab size 1,
overlapping sub-mode, used for error-propagation instances. -/
def cfgSlab1Plain : ConfigResources :=
  ⟨[4, 4], .axial, 1, (1, 1, 1), (0, 0, 0), 1, false, false, false, false⟩

/-- A 1×1×2 volume whose axis-2 slice 0 is empty (all 0) and slice 1
holds intensity 1. -/
def volEmptyFirst : Vol3 :=
  ⟨1, 1, 2, fun _ _ k => if k = 0 then 0 else 1⟩

/-- A model bundle whose patch invocation is the total model `mpOne`. -/
def mPatchPureOne : InferModel :=
  ⟨fun _ => .error "na", m1one, m3one, fun w => .ok (mpOne w)⟩

/-- A total 3D slab model returning its input window, for every class. -/
def mp3id : (Nat → Nat → Nat → ℚ) → Nat → Nat → Nat → Nat → ℚ :=
  fun w a b t _ => w a b t

/-- Non-overlapping sagittal slab configuration with slab size 2. -/
def cfgNOsag : ConfigResources :=
  ⟨[4, 4], .sagittal, 2, (1, 1, 1), (0, 0, 0), 1, true, false, false, false⟩

/-! Helper lemmas shared by the claim theorems. -/

theorem relabel_isOk {α : Type} (msg : String) (e : Except String α) :
    (relabel msg e).isOk = e.isOk := by
  cases e <;> rfl

theorem relabel_eq_error {α : Type} {msg s : String} {e : Except String α}
    (h : relabel msg e = .error s) : s = msg := by
  cases e with
  | ok a => simp [relabel] at h
  | error b => simp [relabel] at h; exact h.symm

theorem mapShapeOk (e : Except String (Nat → Nat → Nat → Nat → ℚ))
    (msg : String) (a b c d : Nat)
    (h : (relabel msg (e.map fun v => (⟨a, b, c, d, v⟩ : Vol4))).isOk = true) :
    resultShape (relabel msg (e.map fun v => (⟨a, b, c, d, v⟩ : Vol4))) =
      some (a, b, c, d) := by
  cases e with
  | ok v => simp [relabel, resultShape, Except.map]
  | error s => simp [relabel, Except.map, Except.isOk, Except.toBool] at h

theorem runSlabbed_shape (cfg : ConfigResources) (m : InferModel) (data : Vol3)
    (h : (runSlabbed cfg m data).1.isOk = true) :
    resultShape (runSlabbed cfg m data).1 =
      some (data.d0, data.d1, data.d2, cfg.training_nb_classes) := by
  unfold runSlabbed at h ⊢
  by_cases h1 : cfg.predictions_non_overlapping
  · simp only [h1, if_true] at h ⊢
    exact mapShapeOk _ _ _ _ _ _ h
  · simp only [h1, if_false] at h ⊢
    by_cases h2 : cfg.training_slab_size = 1
    · simp only [h2, if_pos rfl, if_true] at h ⊢
      exact mapShapeOk _ _ _ _ _ _ h
    · simp only [if_neg h2] at h ⊢
      exact mapShapeOk _ _ _ _ _ _ h

theorem runPatch_shape (cfg : ConfigResources) (m : InferModel) (data : Vol3)
    (h : (runPatch cfg m data).isOk = true) :
    resultShape (runPatch cfg m data) =
      some (data.d0, data.d1, data.d2, cfg.training_nb_classes) := by
  unfold runPatch at h ⊢
  cases he : patchFold m.patch3d (patchPadded cfg data).1 (patchDims cfg data)
      cfg.training_patch_size cfg.training_patch_offset
      (patchGridOf cfg data) zeroVal with
  | error s =>
    rw [he] at h
    simp [relabel, Except.map, Except.isOk, Except.toBool] at h
  | ok v =>
    simp only [Except.map, relabel, resultShape, stripVol, patchDims,
      patchPadded, padding_for_inference_both_ends_patchwise,
      Option.some.injEq, Prod.mk.injEq]
    exact ⟨by omega, by omega, by omega, trivial⟩

/-- Claim C1: for every successful `run_predictions` call, in every mode,
the first three dimensions of the probability volume equal the original
(unpadded) input volume's spatial shape and the fourth equals
`training_nb_classes`.  In whole mode the result is the model's primary
output itself, so the model is assumed shape-conformant (hypothesis
`hw`); the slab modes allocate the accumulator at the unpadded shape
before padding, and patch mode strips the recorded padding. -/
theorem shape_invariance (cfg : ConfigResources) (m : InferModel) (data : Vol3)
    (hw : ∀ p, m.whole data = .ok p →
      p.d0 = data.d0 ∧ p.d1 = data.d1 ∧ p.d2 = data.d2 ∧
        p.dc = cfg.training_nb_classes)
    (hok : (run_predictions cfg m data).1.isOk = true) :
    resultShape (run_predictions cfg m data).1 =
      some (data.d0, data.d1, data.d2, cfg.training_nb_classes) := by
  unfold run_predictions at hok ⊢
  by_cases h3 : cfg.new_axial_size ≠ [] ∧ cfg.new_axial_size.length = 3
  · rw [if_pos h3] at hok ⊢
    cases hmw : m.whole data with
    | error s =>
      unfold runWhole at hok
      rw [hmw] at hok
      simp [relabel, Except.isOk, Except.toBool] at hok
    | ok p =>
      have hp := hw p hmw
      unfold runWhole
      rw [hmw]
      simp [relabel, resultShape, hp.1, hp.2.1, hp.2.2.1, hp.2.2.2]
  · rw [if_neg h3] at hok ⊢
    by_cases h2 : cfg.new_axial_size ≠ [] ∧ cfg.new_axial_size.length = 2
    · rw [if_pos h2] at hok ⊢
      exact runSlabbed_shape cfg m data hok
    · rw [if_neg h2] at hok ⊢
      exact runPatch_shape cfg m data hok

/-- Witness for `shape_invariance`: a patch-mode run (empty
`new_axial_size`) on a 1×1×1 volume; the whole-mode shape hypothesis
holds vacuously for `mPatchOnly`, whose whole-model invocation fails. -/
theorem shape_invariance_witness :
    (∀ p, mPatchOnly.whole volUnit111 = .ok p →
      p.d0 = volUnit111.d0 ∧ p.d1 = volUnit111.d1 ∧ p.d2 = volUnit111.d2 ∧
        p.dc = cfgPatchTiny.training_nb_classes) ∧
    (run_predictions cfgPatchTiny mPatchOnly volUnit111).1.isOk = true ∧
    resultShape (run_predictions cfgPatchTiny mPatchOnly volUnit111).1 =
      some (volUnit111.d0, volUnit111.d1, volUnit111.d2,
        cfgPatchTiny.training_nb_classes) :=
  ⟨fun p h => by simp [mPatchOnly] at h, by decide,
   shape_invariance cfgPatchTiny mPatchOnly volUnit111
     (fun p h => by simp [mPatchOnly] at h) (by decide)⟩

/-- Claim C5: in patch mode, on every axis, a candidate patch whose upper
boundary exceeds the padded extent is shifted backward by the overflow so
that it lies flush against the far edge (`[dim - ps, dim)`); if the
shifted lower boundary would be negative the patch is skipped (`none`),
not an error. -/
theorem patch_shift_and_skip (start ps dim : Int) (hover : dim < start + ps) :
    patchB1 start ps dim =
      if dim - ps < 0 then none else some (dim - ps, dim) := by
  unfold patchB1
  rw [if_pos (le_of_lt hover)]
  by_cases hn : start - ((dim - (start + ps)).natAbs : Int) < 0
  · rw [if_pos hn, if_pos (by omega)]
  · rw [if_neg hn, if_neg (by omega)]
    simp only [Option.some.injEq, Prod.mk.injEq]
    omega

/-- Witness for `patch_shift_and_skip`: the last axis-2 candidate of the
§8 scenario, `[24, 56)` against extent 40, is shifted flush to `[8, 40)`. -/
theorem patch_shift_and_skip_witness :
    ((40 : Int) < 24 + 32) ∧
      patchB1 24 32 40 =
        (if (40 : Int) - 32 < 0 then none else some ((40 : Int) - 32, (40 : Int))) :=
  ⟨by decide, patch_shift_and_skip 24 32 40 (by decide)⟩

/-- Claim C6 counterexample: in the §8 edge-case scenario — volume
(64,64,40), patch size (32,32,32), offset (8,8,8) — no padding is added,
and axis 2 has only `ceil(40/24) = 2` candidate positions, both
non-skipped; the claimed "3 non-skipped patch positions per axis" fails
on axis 2. -/
theorem patch_scenario_axis2_two_positions :
    (padding_for_inference_both_ends_patchwise vol64x64x40 (32, 32, 32)).2 =
      ⟨0, 0, 0, 0, 0, 0⟩ ∧
    (nonSkippedAxis 40 32 8).length = 2 ∧
    ¬ (nonSkippedAxis 40 32 8).length = 3 := by decide

/-- Claim C6 as amended: in the §8 scenario there is no padding, axes 0
and 1 have 3 non-skipped positions and axis 2 has 2, the last position on
each axis is shifted flush against the boundary (upper bound = extent),
and no candidate position is skipped. -/
theorem patch_scenario_counts :
    (padding_for_inference_both_ends_patchwise vol64x64x40 (32, 32, 32)).2 =
      ⟨0, 0, 0, 0, 0, 0⟩ ∧
    nonSkippedAxis 64 32 8 = [(0, 32), (24, 56), (32, 64)] ∧
    nonSkippedAxis 40 32 8 = [(0, 32), (8, 40)] ∧
    (nonSkippedAxis 64 32 8).length = (List.range (ceilDivN 64 (32 - 8))).length ∧
    (nonSkippedAxis 40 32 8).length = (List.range (ceilDivN 40 (32 - 8))).length := by
  decide

/-- Claim C2 (code-bug demonstration): axial sliding-window slab mode
with slab size 2 on a 1×1×3 volume of all-1 intensities and a model that
predicts 1 everywhere: slices 0 and 1 of the result hold 1, but slice 2
— a non-empty slice, not subject to the empty-slice skip — is never
written and stays 0, because the loop runs `slice` over
`range(half_slab_size, upper_boundary)` and writes to `slice - half`. -/
theorem slabK_boundary_slice_never_written :
    resVal (runSlabbedSlidingK cfgSlabAxial2 m3one volOnes113) 0 0 0 0 = some 1 ∧
    resVal (runSlabbedSlidingK cfgSlabAxial2 m3one volOnes113) 0 0 1 0 = some 1 ∧
    resVal (runSlabbedSlidingK cfgSlabAxial2 m3one volOnes113) 0 0 2 0 = some 0 ∧
    emptySlice2 volOnes113 2 = false := by decide

/-- Claim C3 (code-bug demonstration): sagittal sliding-window slab mode
with slab size 2 on a 3×1×1 volume with axis-0 values 1, 2, 3 and the
identity model (output slice `t` = input slice `t`): the window whose
center is original slice 0 is written to original slice 1 (value 1
instead of the centered 2), the window centered on slice 1 is written to
slice 2 (value 2 instead of 3), and slice 0 is never written. -/
theorem slabK_sagittal_write_offcenter :
    volRamp311.val 0 0 0 = 1 ∧ volRamp311.val 1 0 0 = 2 ∧
    volRamp311.val 2 0 0 = 3 ∧
    resVal (runSlabbedSlidingK cfgSlabSag2 m3id volRamp311) 1 0 0 0 = some 1 ∧
    resVal (runSlabbedSlidingK cfgSlabSag2 m3id volRamp311) 2 0 0 0 = some 2 ∧
    resVal (runSlabbedSlidingK cfgSlabSag2 m3id volRamp311) 0 0 0 0 = some 0 := by
  decide

/-- Claim C8 (code-bug demonstration): calling `run_predictions` in slab
mode with `swap_training_input` set mutates the configuration's
`new_axial_size` list in place: `[2, 3]` becomes `[3, 2]` after the
call. -/
theorem config_new_axial_size_mutated :
    cfgSwap.new_axial_size = [2, 3] ∧
    cfgSwap.swap_training_input = true ∧
    (run_predictions cfgSwap mAllOne volStep211).2.new_axial_size = [3, 2] ∧
    (run_predictions cfgSwap mAllOne volStep211).2.new_axial_size ≠
      cfgSwap.new_axial_size := by decide

/-- Claim C9 counterexample: a sagittal configuration in the
`slab_size == 1` sub-mode on a 2×1×1 volume whose axis-0 slice 1 is
entirely below the 0.1 threshold.  The loop performs one iteration (the
single axis-2 slice, logged as `[0]`), not two axis-0 iterations, and the
voxel `(1,0,0)` — which an axis-0-following loop would have skipped as
empty and left at 0 — receives the model's prediction 1. -/
theorem slab1_sagittal_ignores_plane :
    cfgSlabSag1.slicing_plane = SlicingPlane.sagittal ∧
    cfgSlabSag1.training_slab_size = 1 ∧
    volStep211.d0 = 2 ∧ volStep211.d2 = 1 ∧
    (runSlabbedSliding1 cfgSlabSag1 m1one volStep211).2 = [0] ∧
    volStep211.val 1 0 0 ≤ mkRat 1 10 ∧
    resVal (runSlabbedSliding1 cfgSlabSag1 m1one volStep211).1 1 0 0 0 =
      some 1 := by decide

theorem sliding1Fold_log_mem (data : Vol3)
    (m1 : (Nat → Nat → ℚ) → Except String (Nat → Nat → Nat → ℚ)) (t : Nat) :
    ∀ (L : List Nat) (acc : Nat → Nat → Nat → Nat → ℚ) (log : List Nat),
      t ∈ (sliding1Fold data m1 L acc log).2 →
      t ∈ log ∨ (t ∈ L ∧ emptySlice2 data t = false) := by
  intro L
  induction L with
  | nil => intro acc log h; exact Or.inl h
  | cons s rest ih =>
    intro acc log h
    unfold sliding1Fold at h
    by_cases hs : emptySlice2 data s
    · rw [if_pos hs] at h
      rcases ih acc log h with h1 | h2
      · exact Or.inl h1
      · exact Or.inr ⟨List.mem_cons_of_mem s h2.1, h2.2⟩
    · rw [if_neg hs] at h
      cases hm : m1 fun i j => data.val i j s with
      | error e =>
        rw [hm] at h
        simp only [List.mem_append, List.mem_singleton] at h
        rcases h with h1 | h1
        · exact Or.inl h1
        · exact Or.inr ⟨h1 ▸ List.mem_cons_self s rest,
            h1 ▸ Bool.of_not_eq_true hs⟩
      | ok pred =>
        rw [hm] at h
        rcases ih (write1 s pred acc) (log ++ [s]) h with h1 | h2
        · simp only [List.mem_append, List.mem_singleton] at h1
          rcases h1 with h3 | h3
          · exact Or.inl h3
          · exact Or.inr ⟨h3 ▸ List.mem_cons_self s rest,
              h3 ▸ Bool.of_not_eq_true hs⟩
        · exact Or.inr ⟨List.mem_cons_of_mem s h2.1, h2.2⟩

theorem sliding1Fold_val_empty (data : Vol3)
    (m1 : (Nat → Nat → ℚ) → Except String (Nat → Nat → Nat → ℚ)) (s : Nat)
    (hemp : emptySlice2 data s = true) :
    ∀ (L : List Nat) (acc : Nat → Nat → Nat → Nat → ℚ) (log : List Nat)
      (v : Nat → Nat → Nat → Nat → ℚ),
      (sliding1Fold data m1 L acc log).1 = .ok v →
      ∀ i j c, v i j s c = acc i j s c := by
  intro L
  induction L with
  | nil =>
    intro acc log v h i j c
    unfold sliding1Fold at h
    cases h
    rfl
  | cons t rest ih =>
    intro acc log v h i j c
    unfold sliding1Fold at h
    by_cases ht : emptySlice2 data t
    · rw [if_pos ht] at h
      exact ih acc log v h i j c
    · rw [if_neg ht] at h
      cases hm : m1 fun i' j' => data.val i' j' t with
      | error e => rw [hm] at h; cases h
      | ok pred =>
        rw [hm] at h
        have := ih (write1 t pred acc) (log ++ [t]) v h i j c
        rw [this]
        unfold write1
        have hts : s ≠ t := by
          intro hst
          rw [hst] at hemp
          exact ht hemp
        rw [if_neg hts]

/-- Claim C10: in the `slab_size == 1` sliding sub-mode, a slice (an
axis-2 plane, which is what this sub-mode iterates over) with no voxel
exceeding intensity 0.1 is skipped — the model is never invoked for it —
and its probabilities in the returned volume stay 0. -/
theorem slab1_empty_slice_skipped (cfg : ConfigResources)
    (m1 : (Nat → Nat → ℚ) → Except String (Nat → Nat → Nat → ℚ))
    (data : Vol3) (s : Nat) (hemp : emptySlice2 data s = true) :
    s ∉ (runSlabbedSliding1 cfg m1 data).2 ∧
    ∀ r, (runSlabbedSliding1 cfg m1 data).1 = .ok r →
      ∀ i j c, r.val i j s c = 0 := by
  constructor
  · intro hmem
    unfold runSlabbedSliding1 at hmem
    rcases sliding1Fold_log_mem data m1 s (List.range data.d2) zeroVal [] hmem
      with h1 | h2
    · cases h1
    · rw [hemp] at h2
      cases h2.2
  · intro r hr i j c
    unfold runSlabbedSliding1 at hr
    cases hf : (sliding1Fold data m1 (List.range data.d2) zeroVal []).1 with
    | error e => rw [hf] at hr; cases hr
    | ok v =>
      rw [hf] at hr
      cases hr
      exact sliding1Fold_val_empty data m1 s hemp (List.range data.d2)
        zeroVal [] v hf i j c

/-- Witness for `slab1_empty_slice_skipped`: a 1×1×2 volume whose axis-2
slice 0 is all-zero; the run invokes the model only for slice 1 and
leaves slice 0 at probability 0. -/
theorem slab1_empty_slice_skipped_witness :
    emptySlice2 volEmptyFirst 0 = true ∧
    (0 ∉ (runSlabbedSliding1 cfgSlab1Plain m1one volEmptyFirst).2 ∧
     ∀ r, (runSlabbedSliding1 cfgSlab1Plain m1one volEmptyFirst).1 = .ok r →
       ∀ i j c, r.val i j 0 c = 0) :=
  ⟨by decide,
   slab1_empty_slice_skipped cfgSlab1Plain m1one volEmptyFirst 0 (by decide)⟩

theorem sliding1Fold_fails (data : Vol3)
    (m1 : (Nat → Nat → ℚ) → Except String (Nat → Nat → Nat → ℚ))
    (s : String) (hfail : ∀ w, m1 w = .error s) :
    ∀ (L : List Nat) (acc : Nat → Nat → Nat → Nat → ℚ) (log : List Nat),
      (L.any fun t => !emptySlice2 data t) = true →
      ∃ e, (sliding1Fold data m1 L acc log).1 = .error e := by
  intro L
  induction L with
  | nil => intro acc log h; cases h
  | cons t rest ih =>
    intro acc log h
    unfold sliding1Fold
    by_cases ht : emptySlice2 data t
    · rw [if_pos ht]
      refine ih acc log ?_
      simp only [List.any_cons, ht, Bool.not_true, Bool.false_or] at h
      exact h
    · rw [if_neg ht, hfail]
      exact ⟨s, rfl⟩

theorem patchFold_fails
    (mp : (Nat → Nat → Nat → ℚ) → Except String (Nat → Nat → Nat → Nat → ℚ))
    (padded : Vol3) (dims : Nat × Nat × Nat) (ps off : Nat × Nat × Nat)
    (s : String) (hfail : ∀ w, mp w = .error s) :
    ∀ (gs : List (Nat × Nat × Nat)) (acc : Nat → Nat → Nat → Nat → ℚ),
      (gs.any fun g => (patchBounds dims ps off g).isSome) = true →
      ∃ e, patchFold mp padded dims ps off gs acc = .error e := by
  intro gs
  induction gs with
  | nil => intro acc h; cases h
  | cons g rest ih =>
    intro acc h
    unfold patchFold
    cases hb : patchBounds dims ps off g with
    | none =>
      refine ih acc ?_
      simp only [List.any_cons, hb, Option.isSome_none, Bool.false_or] at h
      exact h
    | some b => exact ⟨s, by simp [hfail]⟩

/-- Claim C7: any model-invocation failure inside a strategy aborts the
whole run with the single fatal mode-labelled error — "Segmentation
inference (whole|slab|patch mode) could not fully proceed." — and no
(partial) probability volume is returned (an `Except.error` carries no
volume).  The first three conjuncts show every failure is relabelled
with the active mode's message; the last three show a raising model
actually produces that failure in each strategy (given that at least one
invocation is reached: always in whole mode, a non-empty slice in the
slab sub-mode, a non-skipped patch in patch mode). -/
theorem inference_failure_fatal :
    (∀ (m : InferModel) (data : Vol3) (e : String),
      runWhole m data = .error e →
      e = "Segmentation inference (whole mode) could not fully proceed.") ∧
    (∀ (cfg : ConfigResources) (m : InferModel) (data : Vol3) (e : String),
      (runSlabbed cfg m data).1 = .error e →
      e = "Segmentation inference (slab mode) could not fully proceed.") ∧
    (∀ (cfg : ConfigResources) (m : InferModel) (data : Vol3) (e : String),
      runPatch cfg m data = .error e →
      e = "Segmentation inference (patch mode) could not fully proceed.") ∧
    (∀ (m : InferModel) (data : Vol3) (s : String),
      m.whole data = .error s →
      runWhole m data =
        .error "Segmentation inference (whole mode) could not fully proceed.") ∧
    (∀ (cfg : ConfigResources) (m : InferModel) (data : Vol3) (s : String),
      cfg.predictions_non_overlapping = false →
      cfg.training_slab_size = 1 →
      (∀ w, m.slab2d w = .error s) →
      ((List.range data.d2).any fun t => !emptySlice2 data t) = true →
      (runSlabbed cfg m data).1 =
        .error "Segmentation inference (slab mode) could not fully proceed.") ∧
    (∀ (cfg : ConfigResources) (m : InferModel) (data : Vol3) (s : String),
      (∀ w, m.patch3d w = .error s) →
      ((patchGridOf cfg data).any fun g =>
        (patchBounds (patchDims cfg data) cfg.training_patch_size
          cfg.training_patch_offset g).isSome) = true →
      runPatch cfg m data =
        .error "Segmentation inference (patch mode) could not fully proceed.") ∧
    (∀ (cfg : ConfigResources) (m : InferModel) (data : Vol3) (e : String),
      (run_predictions cfg m data).1 = .error e →
      e = "Segmentation inference (whole mode) could not fully proceed." ∨
      e = "Segmentation inference (slab mode) could not fully proceed." ∨
      e = "Segmentation inference (patch mode) could not fully proceed.") := by
  refine ⟨?_, ?_, ?_, ?_, ?_, ?_, ?_⟩
  · intro m data e h
    unfold runWhole at h
    exact relabel_eq_error h
  · intro cfg m data e h
    unfold runSlabbed at h
    exact relabel_eq_error h
  · intro cfg m data e h
    unfold runPatch at h
    exact relabel_eq_error h
  · intro m data s h
    unfold runWhole
    rw [h]
    rfl
  · intro cfg m data s hno h1 hfail hne
    unfold runSlabbed
    rw [hno]
    simp only [Bool.false_eq_true, if_false, h1, if_pos rfl, if_true]
    obtain ⟨e, he⟩ :=
      sliding1Fold_fails data m.slab2d s hfail (List.range data.d2) zeroVal [] hne
    unfold runSlabbedSliding1
    rw [he]
    rfl
  · intro cfg m data s hfail hne
    unfold runPatch
    obtain ⟨e, he⟩ :=
      patchFold_fails m.patch3d (patchPadded cfg data).1 (patchDims cfg data)
        cfg.training_patch_size cfg.training_patch_offset s hfail
        (patchGridOf cfg data) zeroVal hne
    rw [he]
    rfl
  · intro cfg m data e h
    unfold run_predictions at h
    by_cases h3 : cfg.new_axial_size ≠ [] ∧ cfg.new_axial_size.length = 3
    · rw [if_pos h3] at h
      unfold runWhole at h
      exact Or.inl (relabel_eq_error h)
    · rw [if_neg h3] at h
      by_cases h2 : cfg.new_axial_size ≠ [] ∧ cfg.new_axial_size.length = 2
      · rw [if_pos h2] at h
        unfold runSlabbed at h
        exact Or.inr (Or.inl (relabel_eq_error h))
      · rw [if_neg h2] at h
        unfold runPatch at h
        exact Or.inr (Or.inr (relabel_eq_error h))

/-- Witness for `inference_failure_fatal`: with the everywhere-raising
model `mErr`, each strategy fails with exactly its mode-labelled
message on concrete inputs. -/
theorem inference_failure_fatal_witness :
    runWhole mErr volUnit111 =
      .error "Segmentation inference (whole mode) could not fully proceed." ∧
    (runSlabbed cfgSlab1Plain mErr volOnes113).1 =
      .error "Segmentation inference (slab mode) could not fully proceed." ∧
    runPatch cfgPatchTiny mErr volUnit111 =
      .error "Segmentation inference (patch mode) could not fully proceed." :=
  ⟨inference_failure_fatal.2.2.2.1 mErr volUnit111 "onnx" rfl,
   inference_failure_fatal.2.2.2.2.1 cfgSlab1Plain mErr volOnes113 "onnx"
     rfl rfl (fun _ => rfl) (by decide),
   inference_failure_fatal.2.2.2.2.2.1 cfgPatchTiny mErr volUnit111 "onnx"
     (fun _ => rfl) (by decide)⟩

theorem le_foldlMax : ∀ (L : List ℚ) (a : ℚ),
    a ≤ L.foldl (fun q pr => max pr q) a := by
  intro L
  induction L with
  | nil => intro a; exact le_refl a
  | cons x L ih => intro a; exact le_trans (le_max_right x a) (ih (max x a))

theorem mem_le_foldlMax : ∀ (L : List ℚ) (a q : ℚ), q ∈ L →
    q ≤ L.foldl (fun q pr => max pr q) a := by
  intro L
  induction L with
  | nil => intro a q h; cases h
  | cons x L ih =>
    intro a q h
    rcases List.mem_cons.mp h with h1 | h1
    · subst h1
      exact le_trans (le_max_left q a) (le_foldlMax L (max q a))
    · exact ih (max x a) q h1

theorem foldlMax_mem_or : ∀ (L : List ℚ) (a : ℚ),
    L.foldl (fun q pr => max pr q) a = a ∨
      L.foldl (fun q pr => max pr q) a ∈ L := by
  intro L
  induction L with
  | nil => intro a; exact Or.inl rfl
  | cons x L ih =>
    intro a
    rcases ih (max x a) with h | h
    · rcases max_choice x a with hx | hx
      · exact Or.inr (by rw [List.foldl_cons, h, hx]; exact List.mem_cons_self x L)
      · exact Or.inl (by rw [List.foldl_cons, h, hx])
    · exact Or.inr (List.mem_cons_of_mem x h)

theorem patchFoldPure_val
    (mp : (Nat → Nat → Nat → ℚ) → Nat → Nat → Nat → Nat → ℚ)
    (padded : Vol3) (dims : Nat × Nat × Nat) (ps off : Nat × Nat × Nat)
    (i j k c : Nat) :
    ∀ (L : List (Nat × Nat × Nat)) (acc : Nat → Nat → Nat → Nat → ℚ),
      patchFoldPure mp padded dims ps off L acc i j k c =
        (coveringPredsL mp padded dims ps off L i j k c).foldl
          (fun q pr => max pr q) (acc i j k c) := by
  intro L
  induction L with
  | nil => intro acc; rfl
  | cons g L ih =>
    intro acc
    unfold patchFoldPure at ih ⊢
    rw [List.foldl_cons]
    rw [ih (patchStep mp padded dims ps off acc g)]
    unfold coveringPredsL at ih ⊢
    rw [List.filterMap_cons]
    cases hb : patchBounds dims ps off g with
    | none =>
      simp only [patchStep, hb]
    | some b =>
      by_cases hip : inPatchB b i j k
      · simp only [patchStep, hb, hip, if_pos, List.foldl_cons, writeMaxPatch,
          if_true]
        rfl
      · simp only [patchStep, hb, hip, writeMaxPatch, if_false,
          Bool.false_eq_true]

theorem patchStep_comm
    (mp : (Nat → Nat → Nat → ℚ) → Nat → Nat → Nat → Nat → ℚ)
    (padded : Vol3) (dims : Nat × Nat × Nat) (ps off : Nat × Nat × Nat)
    (acc : Nat → Nat → Nat → Nat → ℚ) (g g' : Nat × Nat × Nat) :
    patchStep mp padded dims ps off
      (patchStep mp padded dims ps off acc g) g' =
    patchStep mp padded dims ps off
      (patchStep mp padded dims ps off acc g') g := by
  cases hb : patchBounds dims ps off g with
  | none => cases hb' : patchBounds dims ps off g' with
    | none => simp only [patchStep, hb, hb']
    | some b' => simp only [patchStep, hb, hb']
  | some b => cases hb' : patchBounds dims ps off g' with
    | none => simp only [patchStep, hb, hb']
    | some b' =>
      simp only [patchStep, hb, hb']
      funext i j k c
      simp only [writeMaxPatch]
      by_cases h1 : inPatchB b i j k <;> by_cases h2 : inPatchB b' i j k <;>
        simp only [h1, h2, if_true, if_false, Bool.false_eq_true]
      exact max_left_comm _ _ _

theorem patchFold_total
    (mp : (Nat → Nat → Nat → ℚ) → Nat → Nat → Nat → Nat → ℚ)
    (padded : Vol3) (dims : Nat × Nat × Nat) (ps off : Nat × Nat × Nat) :
    ∀ (gs : List (Nat × Nat × Nat)) (acc : Nat → Nat → Nat → Nat → ℚ),
      patchFold (fun w => .ok (mp w)) padded dims ps off gs acc =
        .ok (patchFoldPure mp padded dims ps off gs acc) := by
  intro gs
  induction gs with
  | nil => intro acc; rfl
  | cons g rest ih =>
    intro acc
    unfold patchFold patchFoldPure
    rw [List.foldl_cons]
    cases hb : patchBounds dims ps off g with
    | none => simpa only [hb, patchStep] using ih acc
    | some b =>
      simpa only [hb, patchStep] using ih (writeMaxPatch b (mp (extractPatch padded b)) acc)

/-- Claim C4: in patch mode, the final value at a voxel covered by at
least one (possibly several overlapping) patches is the element-wise
maximum of the covering patches' predictions there (membership plus
upper bound), given non-negative predictions (the accumulator starts at
0, so a negative maximum would be masked); the accumulation is invariant
under any reordering of the patch grid; and the returned volume is the
accumulator with the padding stripped. -/
theorem patch_overlap_max (cfg : ConfigResources) (m : InferModel)
    (mp : (Nat → Nat → Nat → ℚ) → Nat → Nat → Nat → Nat → ℚ) (data : Vol3)
    (hm : m.patch3d = fun w => .ok (mp w)) (i j k c : Nat)
    (hne : patchCovering cfg mp data i j k c ≠ [])
    (hnn : ∀ q ∈ patchCovering cfg mp data i j k c, 0 ≤ q) :
    patchAccum cfg mp data i j k c ∈ patchCovering cfg mp data i j k c ∧
    (∀ q ∈ patchCovering cfg mp data i j k c,
      q ≤ patchAccum cfg mp data i j k c) ∧
    (∀ L, L.Perm (patchGridOf cfg data) →
      patchFoldPure mp (patchPadded cfg data).1 (patchDims cfg data)
        cfg.training_patch_size cfg.training_patch_offset L zeroVal =
        patchAccum cfg mp data) ∧
    (∀ x y z c', resVal (runPatch cfg m data) x y z c' =
      some (patchAccum cfg mp data (x + (patchPadded cfg data).2.l0)
        (y + (patchPadded cfg data).2.l1) (z + (patchPadded cfg data).2.l2)
        c')) := by
  have hval : patchAccum cfg mp data i j k c =
      (patchCovering cfg mp data i j k c).foldl (fun q pr => max pr q) 0 :=
    patchFoldPure_val mp (patchPadded cfg data).1 (patchDims cfg data)
      cfg.training_patch_size cfg.training_patch_offset i j k c
      (patchGridOf cfg data) zeroVal
  refine ⟨?_, ?_, ?_, ?_⟩
  · rw [hval]
    rcases foldlMax_mem_or (patchCovering cfg mp data i j k c) 0 with h | h
    · cases hc : patchCovering cfg mp data i j k c with
      | nil => exact absurd hc hne
      | cons q rest =>
        rw [hc] at h
        have hq0 : 0 ≤ q := hnn q (by rw [hc]; exact List.mem_cons_self q rest)
        have hqle : q ≤ (q :: rest).foldl (fun q pr => max pr q) 0 :=
          mem_le_foldlMax _ 0 q (List.mem_cons_self q rest)
        rw [h]
        have hq : q = 0 := le_antisymm (h ▸ hqle) hq0
        exact hq ▸ List.mem_cons_self q rest
    · exact h
  · intro q hq
    rw [hval]
    exact mem_le_foldlMax _ 0 q hq
  · intro L hperm
    unfold patchAccum patchFoldPure
    exact hperm.foldl_eq'
      (fun x _ y _ z =>
        patchStep_comm mp (patchPadded cfg data).1 (patchDims cfg data)
          cfg.training_patch_size cfg.training_patch_offset z x y) zeroVal
  · intro x y z c'
    unfold runPatch
    rw [hm, patchFold_total mp (patchPadded cfg data).1 (patchDims cfg data)
      cfg.training_patch_size cfg.training_patch_offset
      (patchGridOf cfg data) zeroVal]
    rfl

/-- Witness for `patch_overlap_max`: 2×1×1 patches with offset 1 on a
3×1×1 volume; voxel `(1,0,0)` is covered by all three (shift-coinciding)
patches, each predicting 1. -/
theorem patch_overlap_max_witness :
    mPatchPureOne.patch3d = (fun w => .ok (mpOne w)) ∧
    patchCovering cfgPatchOverlap mpOne volRamp311 1 0 0 0 ≠ [] ∧
    (∀ q ∈ patchCovering cfgPatchOverlap mpOne volRamp311 1 0 0 0, 0 ≤ q) ∧
    (patchAccum cfgPatchOverlap mpOne volRamp311 1 0 0 0 ∈
        patchCovering cfgPatchOverlap mpOne volRamp311 1 0 0 0 ∧
      (∀ q ∈ patchCovering cfgPatchOverlap mpOne volRamp311 1 0 0 0,
        q ≤ patchAccum cfgPatchOverlap mpOne volRamp311 1 0 0 0) ∧
      (∀ L, L.Perm (patchGridOf cfgPatchOverlap volRamp311) →
        patchFoldPure mpOne (patchPadded cfgPatchOverlap volRamp311).1
          (patchDims cfgPatchOverlap volRamp311)
          cfgPatchOverlap.training_patch_size
          cfgPatchOverlap.training_patch_offset L zeroVal =
          patchAccum cfgPatchOverlap mpOne volRamp311) ∧
      (∀ x y z c',
        resVal (runPatch cfgPatchOverlap mPatchPureOne volRamp311) x y z c' =
          some (patchAccum cfgPatchOverlap mpOne volRamp311
            (x + (patchPadded cfgPatchOverlap volRamp311).2.l0)
            (y + (patchPadded cfgPatchOverlap volRamp311).2.l1)
            (z + (patchPadded cfgPatchOverlap volRamp311).2.l2) c'))) :=
  ⟨rfl, by decide, by decide,
   patch_overlap_max cfgPatchOverlap mPatchPureOne mpOne volRamp311 rfl 1 0 0 0
     (by decide) (by decide)⟩

theorem orient3_okM3 (fix : Bool)
    (mp : (Nat → Nat → Nat → ℚ) → Nat → Nat → Nat → Nat → ℚ)
    (w : Nat → Nat → Nat → ℚ) :
    orient3 fix (okM3 mp) w = .ok (orient3P fix mp w) := by
  cases fix <;> rfl

theorem nonOverlapFold_total (p : SlicingPlane) (fix : Bool)
    (slab padVal scale : Nat) (padded : Vol3)
    (mp : (Nat → Nat → Nat → ℚ) → Nat → Nat → Nat → Nat → ℚ) :
    ∀ (L : List Nat) (acc : Nat → Nat → Nat → Nat → ℚ),
      nonOverlapFold p fix slab padVal scale padded (okM3 mp) L acc =
        .ok (nonOverlapPure p fix slab padVal scale padded mp L acc) := by
  intro L
  induction L with
  | nil => intro acc; rfl
  | cons ch rest ih =>
    intro acc
    unfold nonOverlapFold nonOverlapPure
    rw [orient3_okM3, List.foldl_cons]
    exact ih _

theorem chunk_disjoint (slab ax ch ch' : Nat)
    (h1 : ch * slab ≤ ax) (h2 : ax < ch * slab + slab) (hne : ch' ≠ ch) :
    ¬ (ch' * slab ≤ ax ∧ ax < ch' * slab + slab) := by
  rintro ⟨g1, g2⟩
  rcases Nat.lt_or_ge ch' ch with hlt | hge
  · have h3 : (ch' + 1) * slab ≤ ch * slab := Nat.mul_le_mul_right slab hlt
    rw [Nat.add_mul, one_mul] at h3
    omega
  · have hlt' : ch < ch' := lt_of_le_of_ne hge (Ne.symm hne)
    have h3 : (ch + 1) * slab ≤ ch' * slab := Nat.mul_le_mul_right slab hlt'
    rw [Nat.add_mul, one_mul] at h3
    omega

theorem nonOverlapPure_skip (p : SlicingPlane) (fix : Bool)
    (slab padVal scale : Nat) (padded : Vol3)
    (mp : (Nat → Nat → Nat → ℚ) → Nat → Nat → Nat → Nat → ℚ)
    (i j k c ch : Nat) (hpad : padVal = 0)
    (h1 : ch * slab ≤ axisCoord p i j k)
    (h2 : axisCoord p i j k < ch * slab + slab) :
    ∀ (L : List Nat), ch ∉ L → ∀ acc,
      nonOverlapPure p fix slab padVal scale padded mp L acc i j k c =
        acc i j k c := by
  intro L
  induction L with
  | nil => intro _ acc; rfl
  | cons ch' rest ih =>
    intro hmem acc
    unfold nonOverlapPure at ih ⊢
    rw [List.foldl_cons,
      ih (fun hm => hmem (List.mem_cons_of_mem ch' hm)) _]
    unfold writeSlabChunk
    have hne : ch' ≠ ch := fun h => hmem (h ▸ List.mem_cons_self ch' rest)
    have hlen :
        (if ch' = scale - 1 ∧ padVal ≠ 0 then slab - padVal else slab) =
          slab := by
      rw [hpad]; simp
    rw [hlen,
      if_neg (chunk_disjoint slab (axisCoord p i j k) ch ch' h1 h2 hne)]

theorem nonOverlapPure_val (p : SlicingPlane) (fix : Bool)
    (slab padVal scale : Nat) (padded : Vol3)
    (mp : (Nat → Nat → Nat → ℚ) → Nat → Nat → Nat → Nat → ℚ)
    (i j k c ch : Nat) (hpad : padVal = 0)
    (h1 : ch * slab ≤ axisCoord p i j k)
    (h2 : axisCoord p i j k < ch * slab + slab) :
    ∀ (L : List Nat), L.Nodup → ch ∈ L → ∀ acc,
      nonOverlapPure p fix slab padVal scale padded mp L acc i j k c =
        orient3P fix mp (extractSlab p (ch * slab) padded)
          (otherCoords p i j k).1 (otherCoords p i j k).2
          (axisCoord p i j k - ch * slab) c := by
  intro L
  induction L with
  | nil => intro _ h; cases h
  | cons ch' rest ih =>
    intro hnd hmem acc
    by_cases hc : ch' = ch
    · subst hc
      have hnotin : ch' ∉ rest := (List.nodup_cons.mp hnd).1
      unfold nonOverlapPure
      rw [List.foldl_cons]
      have hskip := nonOverlapPure_skip p fix slab padVal scale padded mp
        i j k c ch' hpad h1 h2 rest hnotin
        (writeSlabChunk p (ch' * slab)
          (if ch' = scale - 1 ∧ padVal ≠ 0 then slab - padVal else slab)
          (orient3P fix mp (extractSlab p (ch' * slab) padded)) acc)
      unfold nonOverlapPure at hskip
      rw [hskip]
      unfold writeSlabChunk
      have hlen :
          (if ch' = scale - 1 ∧ padVal ≠ 0 then slab - padVal else slab) =
            slab := by
        rw [hpad]; simp
      rw [hlen, if_pos ⟨h1, h2⟩]
    · have hmem' : ch ∈ rest := by
        rcases List.mem_cons.mp hmem with h | h
        · exact absurd h.symm hc
        · exact h
      unfold nonOverlapPure at ih ⊢
      rw [List.foldl_cons]
      exact ih (List.nodup_cons.mp hnd).2 hmem' _

theorem slidingKFold_support (p : SlicingPlane) (fix : Bool) (half : Nat)
    (padded : Vol3)
    (m3 : (Nat → Nat → Nat → ℚ) → Except String (Nat → Nat → Nat → Nat → ℚ)) :
    ∀ (L : List Nat) (acc : Nat → Nat → Nat → Nat → ℚ)
      (v : Nat → Nat → Nat → Nat → ℚ),
      slidingKFold p fix half padded m3 L acc = .ok v →
      ∀ i j k c, v i j k c ≠ acc i j k c →
        ∃ s, s ∈ L ∧ axisCoord p i j k = writeLoK p s half := by
  intro L
  induction L with
  | nil =>
    intro acc v h i j k c hne
    cases h
    exact absurd rfl hne
  | cons s rest ih =>
    intro acc v h i j k c hne
    unfold slidingKFold at h
    by_cases hs : emptyWindow p half s padded
    · rw [if_pos hs] at h
      obtain ⟨t, ht, he⟩ := ih acc v h i j k c hne
      exact ⟨t, List.mem_cons_of_mem s ht, he⟩
    · rw [if_neg hs] at h
      cases hm : orient3 fix m3 (extractSlab p (s - half) padded) with
      | error e => rw [hm] at h; cases h
      | ok pred =>
        rw [hm] at h
        by_cases hw : writeSlabChunk p (writeLoK p s half) 1
            (fun a b _ c' => pred a b half c') acc i j k c = acc i j k c
        · obtain ⟨t, ht, he⟩ := ih _ v h i j k c (by rw [hw]; exact hne)
          exact ⟨t, List.mem_cons_of_mem s ht, he⟩
        · refine ⟨s, List.mem_cons_self s rest, ?_⟩
          by_contra hax
          apply hw
          unfold writeSlabChunk
          rw [if_neg ?_]
          rintro ⟨hg1, hg2⟩
          exact hax (by omega)

/-- Claim C9 as amended: the `slab_size == 1` sliding sub-mode ignores
`slicing_plane` entirely — iteration, reads and writes always use axis 2
(first conjunct: the result is invariant under changing the plane; see
the counterexample for the fixed-axis behaviour itself) — while the
non-overlapping sub-mode does follow the named axis: the result at a
voxel is the model's output for the chunk containing the voxel's
coordinate along the named axis, read back at that coordinate (second
conjunct, for exact tilings); and in the `slab_size > 1` sliding
sub-mode every voxel that differs from the initial 0 lies on a slice,
along the named axis, written by some loop iteration (third conjunct). -/
theorem slab_axis_amended :
    (∀ (cfg : ConfigResources) (p : SlicingPlane)
        (m1 : (Nat → Nat → ℚ) → Except String (Nat → Nat → Nat → ℚ))
        (data : Vol3),
        runSlabbedSliding1 { cfg with slicing_plane := p } m1 data =
          runSlabbedSliding1 cfg m1 data) ∧
    (∀ (cfg : ConfigResources)
        (mp : (Nat → Nat → Nat → ℚ) → Nat → Nat → Nat → Nat → ℚ)
        (data : Vol3) (i j k c ch : Nat),
        padTailAmount (axisExtent cfg.slicing_plane data)
          cfg.training_slab_size = 0 →
        ch * cfg.training_slab_size ≤ axisCoord cfg.slicing_plane i j k →
        axisCoord cfg.slicing_plane i j k <
          ch * cfg.training_slab_size + cfg.training_slab_size →
        ch < ceilDivN (axisExtent cfg.slicing_plane data)
          cfg.training_slab_size →
        resVal (runSlabbedNonOverlap cfg (okM3 mp) data) i j k c =
          some (orient3P cfg.fix_orientation mp
            (extractSlab cfg.slicing_plane (ch * cfg.training_slab_size)
              (padding_for_inference data cfg.training_slab_size
                cfg.slicing_plane).1)
            (otherCoords cfg.slicing_plane i j k).1
            (otherCoords cfg.slicing_plane i j k).2
            (axisCoord cfg.slicing_plane i j k -
              ch * cfg.training_slab_size) c)) ∧
    (∀ (cfg : ConfigResources)
        (m3 : (Nat → Nat → Nat → ℚ) →
          Except String (Nat → Nat → Nat → Nat → ℚ))
        (data : Vol3) (r : Vol4) (i j k c : Nat),
        runSlabbedSlidingK cfg m3 data = .ok r →
        r.val i j k c ≠ 0 →
        ∃ s, s ∈ List.range' (cfg.training_slab_size / 2)
            (axisExtent cfg.slicing_plane data -
              cfg.training_slab_size / 2) ∧
          axisCoord cfg.slicing_plane i j k =
            writeLoK cfg.slicing_plane s (cfg.training_slab_size / 2)) := by
  refine ⟨fun cfg p m1 data => rfl, ?_, ?_⟩
  · intro cfg mp data i j k c ch hpad h1 h2 hch
    unfold runSlabbedNonOverlap
    rw [nonOverlapFold_total]
    unfold resVal
    simp only [Except.map]
    congr 1
    exact nonOverlapPure_val cfg.slicing_plane cfg.fix_orientation
      cfg.training_slab_size _ _ _ mp i j k c ch hpad h1 h2
      (List.range (ceilDivN (axisExtent cfg.slicing_plane data)
        cfg.training_slab_size))
      (List.nodup_range _) (List.mem_range.mpr hch) zeroVal
  · intro cfg m3 data r i j k c hr hne
    unfold runSlabbedSlidingK at hr
    cases hf : slidingKFold cfg.slicing_plane cfg.fix_orientation
        (cfg.training_slab_size / 2)
        (padding_for_inference_both_ends data cfg.training_slab_size
          cfg.slicing_plane) m3
        (List.range' (cfg.training_slab_size / 2)
          (axisExtent cfg.slicing_plane data - cfg.training_slab_size / 2))
        zeroVal with
    | error e => rw [hf] at hr; cases hr
    | ok v =>
      rw [hf] at hr
      cases hr
      exact slidingKFold_support cfg.slicing_plane cfg.fix_orientation
        (cfg.training_slab_size / 2) _ m3 _ zeroVal v hf i j k c hne

/-- Witness for `slab_axis_amended`: plane-independence of the
`slab_size == 1` sub-mode on concrete inputs; the non-overlapping
characterization for a sagittal 2×1×1 volume tiled by one chunk of 2
slices; and a written-slice certificate for the sagittal `slab_size > 1`
run of the C3 scenario. -/
theorem slab_axis_amended_witness :
    (runSlabbedSliding1
        { cfgSlabSag1 with slicing_plane := SlicingPlane.coronal }
        m1one volStep211 =
      runSlabbedSliding1 cfgSlabSag1 m1one volStep211) ∧
    (padTailAmount (axisExtent cfgNOsag.slicing_plane volStep211)
        cfgNOsag.training_slab_size = 0 ∧
      resVal (runSlabbedNonOverlap cfgNOsag (okM3 mp3id) volStep211) 1 0 0 0 =
        some (orient3P cfgNOsag.fix_orientation mp3id
          (extractSlab cfgNOsag.slicing_plane
            (0 * cfgNOsag.training_slab_size)
            (padding_for_inference volStep211 cfgNOsag.training_slab_size
              cfgNOsag.slicing_plane).1)
          (otherCoords cfgNOsag.slicing_plane 1 0 0).1
          (otherCoords cfgNOsag.slicing_plane 1 0 0).2
          (axisCoord cfgNOsag.slicing_plane 1 0 0 -
            0 * cfgNOsag.training_slab_size) 0)) ∧
    (∃ r, runSlabbedSlidingK cfgSlabSag2 m3id volRamp311 = .ok r ∧
      r.val 1 0 0 0 ≠ 0 ∧
      ∃ s, s ∈ List.range' (cfgSlabSag2.training_slab_size / 2)
          (axisExtent cfgSlabSag2.slicing_plane volRamp311 -
            cfgSlabSag2.training_slab_size / 2) ∧
        axisCoord cfgSlabSag2.slicing_plane 1 0 0 =
          writeLoK cfgSlabSag2.slicing_plane s
            (cfgSlabSag2.training_slab_size / 2)) := by
  refine ⟨slab_axis_amended.1 cfgSlabSag1 SlicingPlane.coronal m1one volStep211,
    ⟨by decide, slab_axis_amended.2.1 cfgNOsag mp3id volStep211 1 0 0 0 0
      (by decide) (by decide) (by decide) (by decide)⟩, ?_⟩
  have hok : (runSlabbedSlidingK cfgSlabSag2 m3id volRamp311).isOk = true := by
    decide
  cases hf : runSlabbedSlidingK cfgSlabSag2 m3id volRamp311 with
  | error e =>
    rw [hf] at hok
    simp [Except.isOk, Except.toBool] at hok
  | ok r =>
    have hval : resVal (runSlabbedSlidingK cfgSlabSag2 m3id volRamp311)
        1 0 0 0 = some 1 := by decide
    rw [hf] at hval
    simp only [resVal, Option.some.injEq] at hval
    have hne : r.val 1 0 0 0 ≠ 0 := by rw [hval]; norm_num
    exact ⟨r, rfl, hne,
      slab_axis_amended.2.2 cfgSlabSag2 m3id volRamp311 r 1 0 0 0 hf hne⟩

end RaidionicsSeg
